import Mathlib

/-!
Verification of `inference_engines.py` (SpandaOptiChat).

The file shallowly embeds the module: JSON values and Python's
`json.loads` grammar, Python string helpers (`lstrip` with a character
set, `strip`), the `EnvConfig` resolver, the non-streaming and streaming
dispatchers (`invoke_llm`, `stream_llm`), the vLLM and Ollama adapters,
and the `SpandaLLM._astream` accumulation loop.  Network interaction is
made explicit: each adapter receives the transport outcome as data and
returns its result together with the HTTP request it issued.
-/

set_option linter.unusedVariables false

namespace SpandaOptiChat

/-- JSON values, as produced by Python's `json.loads`.  Numbers keep their
lexeme (Python would produce an `int` or `float`); objects keep the member
list in source order, with lookup taking the last occurrence of a key, as
Python dict construction does. -/
inductive Json where
  | null : Json
  | bool (flag : Bool) : Json
  | num (lexeme : String) : Json
  | str (text : String) : Json
  | arr (items : List Json) : Json
  | obj (fields : List (String × Json)) : Json

/-- Lookup in a parsed JSON object: the last member with the key wins,
matching Python dict literals built left to right. -/
def getKey : List (String × Json) → String → Option Json
  | [], _ => none
  | (k', v) :: rest, k =>
    match getKey rest k with
    | some v' => some v'
    | none => if k' = k then some v else none

/-- Whether a numeric lexeme denotes zero: every significand digit is `0`
(`0`, `-0`, `0.00`, `0e5`, …).  `NaN` and `Infinity` contain non-`0`
characters and so count as non-zero, as in Python. -/
def numIsZero (lexeme : String) : Bool :=
  let cs := lexeme.data
  let cs := match cs with
    | '-' :: rest => rest
    | _ => cs
  let mantissa := cs.takeWhile (fun c => c ≠ 'e' ∧ c ≠ 'E')
  let digits := mantissa.filter (fun c => c ≠ '.')
  !digits.isEmpty && digits.all (· = '0')

/-- Python truthiness (`bool(x)`) of a JSON value: `None`, `False`,
numeric zero, empty string, empty list and empty dict are falsy. -/
def Json.truthy : Json → Bool
  | .null => false
  | .bool b => b
  | .num lexeme => !numIsZero lexeme
  | .str s => !(s = "")
  | .arr elems => !elems.isEmpty
  | .obj members => !members.isEmpty

/-- The whitespace characters Python's JSON decoder skips between tokens. -/
def jsonWs (c : Char) : Bool :=
  c = ' ' || c = '\t' || c = '\n' || c = '\r'

/-- Skip inter-token whitespace. -/
def skipWs (cs : List Char) : List Char :=
  cs.dropWhile jsonWs

def isDigit (c : Char) : Bool :=
  c.isDigit

/-- The value of one hex digit, in either case. -/
def hexVal (c : Char) : Option Nat :=
  let n := c.toNat
  if 48 ≤ n && n ≤ 57 then some (n - 48)
  else if 97 ≤ n && n ≤ 102 then some (n - 87)
  else if 65 ≤ n && n ≤ 70 then some (n - 55)
  else none

/-- Read exactly four hex digits (the `\uXXXX` escape payload). -/
def parseHex4 : List Char → Option (Nat × List Char)
  | c1 :: c2 :: c3 :: c4 :: rest =>
    match hexVal c1, hexVal c2, hexVal c3, hexVal c4 with
    | some h1, some h2, some h3, some h4 =>
      some (((h1 * 16 + h2) * 16 + h3) * 16 + h4, rest)
    | _, _, _, _ => none
  | _ => none

/-- Drop a literal character sequence from the front, or fail. -/
def dropLit : List Char → List Char → Option (List Char)
  | [], cs => some cs
  | l :: ls, c :: cs => if c = l then dropLit ls cs else none
  | _ :: _, [] => none

/-- Python's strict JSON number grammar:
`-? (0 | [1-9][0-9]*) (. [0-9]+)? ([eE] [+-]? [0-9]+)?`.
Returns the lexeme consumed.  (`NaN`/`Infinity` are handled separately.) -/
def parseNumber (cs : List Char) : Option (String × List Char) :=
  let (sign, cs1) := match cs with
    | '-' :: rest => (['-'], rest)
    | _ => (([] : List Char), cs)
  match cs1 with
  | c :: _ =>
    if ¬ isDigit c then none else
    let (intPart, cs2) := match cs1 with
      | '0' :: rest => (['0'], rest)
      | _ => (cs1.takeWhile isDigit, cs1.dropWhile isDigit)
    let fracStep : Option (List Char × List Char) := match cs2 with
      | '.' :: rest =>
        let ds := rest.takeWhile isDigit
        if ds.isEmpty then none else some ('.' :: ds, rest.dropWhile isDigit)
      | _ => some ([], cs2)
    match fracStep with
    | none => none
    | some (fracPart, cs3) =>
      let expStep : Option (List Char × List Char) := match cs3 with
        | e :: rest =>
          if e = 'e' || e = 'E' then
            let (esign, rest') := match rest with
              | '+' :: r => (['+'], r)
              | '-' :: r => (['-'], r)
              | _ => (([] : List Char), rest)
            let ds := rest'.takeWhile isDigit
            if ds.isEmpty then none
            else some (e :: (esign ++ ds), rest'.dropWhile isDigit)
          else some ([], cs3)
        | [] => some ([], cs3)
      match expStep with
      | none => none
      | some (expPart, cs4) =>
        some (String.mk (sign ++ intPart ++ fracPart ++ expPart), cs4)
  | [] => none

/-- Decode the body of a JSON string (opening quote already consumed).
Strict mode: raw control characters below `0x20` are rejected.  Escapes
are the standard eight plus `\uXXXX` (surrogate pairing is not modelled;
each escape becomes one character). -/
def parseStringBody : Nat → List Char → List Char → Option (String × List Char)
  | 0, _, _ => none
  | _ + 1, _, [] => none
  | fuel + 1, acc, c :: rest =>
    if c = '"' then some (String.mk acc.reverse, rest)
    else if c = '\\' then
      match rest with
      | [] => none
      | e :: rest' =>
        if e = '"' then parseStringBody fuel ('"' :: acc) rest'
        else if e = '\\' then parseStringBody fuel ('\\' :: acc) rest'
        else if e = '/' then parseStringBody fuel ('/' :: acc) rest'
        else if e = 'b' then parseStringBody fuel ('\x08' :: acc) rest'
        else if e = 'f' then parseStringBody fuel ('\x0c' :: acc) rest'
        else if e = 'n' then parseStringBody fuel ('\n' :: acc) rest'
        else if e = 'r' then parseStringBody fuel ('\r' :: acc) rest'
        else if e = 't' then parseStringBody fuel ('\t' :: acc) rest'
        else if e = 'u' then
          match parseHex4 rest' with
          | some (n, rest'') => parseStringBody fuel (Char.ofNat n :: acc) rest''
          | none => none
        else none
    else if c.toNat < 0x20 then none
    else parseStringBody fuel (c :: acc) rest

mutual

/-- Recursive-descent JSON value reader, mirroring Python's decoder.
Expects its input to start at a token (no leading whitespace).  Fuel
bounds nesting; every nested call follows a consumed character, so fuel
`length + 1` always suffices. -/
def parseValue : Nat → List Char → Option (Json × List Char)
  | 0, _ => none
  | _ + 1, [] => none
  | fuel + 1, c :: rest =>
    if c = 't' then (dropLit ['r', 'u', 'e'] rest).map (Json.bool true, ·)
    else if c = 'f' then (dropLit ['a', 'l', 's', 'e'] rest).map (Json.bool false, ·)
    else if c = 'n' then (dropLit ['u', 'l', 'l'] rest).map (Json.null, ·)
    else if c = 'N' then (dropLit ['a', 'N'] rest).map (Json.num "NaN", ·)
    else if c = 'I' then
      (dropLit ['n', 'f', 'i', 'n', 'i', 't', 'y'] rest).map (Json.num "Infinity", ·)
    else if c = '"' then
      (parseStringBody (fuel + 1) [] rest).map (fun (s, r) => (Json.str s, r))
    else if c = '[' then
      match skipWs rest with
      | ']' :: rest' => some (Json.arr [], rest')
      | cs => (parseElems fuel cs).map (fun (xs, r) => (Json.arr xs, r))
    else if c = '\x7b' then
      match skipWs rest with
      | '\x7d' :: rest' => some (Json.obj [], rest')
      | cs => (parseMembers fuel cs).map (fun (ms, r) => (Json.obj ms, r))
    else if c = '-' then
      match rest with
      | 'I' :: rest' =>
        (dropLit ['n', 'f', 'i', 'n', 'i', 't', 'y'] rest').map (Json.num "-Infinity", ·)
      | _ => parseNumber (c :: rest) |>.map (fun (lx, r) => (Json.num lx, r))
    else if isDigit c then
      parseNumber (c :: rest) |>.map (fun (lx, r) => (Json.num lx, r))
    else none

/-- One or more comma-separated array elements, then `]`. -/
def parseElems : Nat → List Char → Option (List Json × List Char)
  | 0, _ => none
  | fuel + 1, cs =>
    match parseValue fuel cs with
    | none => none
    | some (x, rest) =>
      match skipWs rest with
      | ',' :: rest' =>
        (parseElems fuel (skipWs rest')).map (fun (xs, r) => (x :: xs, r))
      | ']' :: rest' => some ([x], rest')
      | _ => none

/-- One or more `"key": value` object members, then the closing brace. -/
def parseMembers : Nat → List Char → Option (List (String × Json) × List Char)
  | 0, _ => none
  | fuel + 1, cs =>
    match cs with
    | '"' :: rest =>
      match parseStringBody (fuel + 1) [] rest with
      | none => none
      | some (k, rest1) =>
        match skipWs rest1 with
        | ':' :: rest2 =>
          match parseValue fuel (skipWs rest2) with
          | none => none
          | some (v, rest3) =>
            match skipWs rest3 with
            | ',' :: rest4 =>
              (parseMembers fuel (skipWs rest4)).map
                (fun (ms, r) => ((k, v) :: ms, r))
            | '\x7d' :: rest4 => some ([(k, v)], rest4)
            | _ => none
        | _ => none
    | _ => none

end

/-- Python's `json.loads`: decode one JSON document; `none` models
`json.JSONDecodeError`. -/
def jsonLoads (s : String) : Option Json :=
  match parseValue (s.data.length + 1) (skipWs s.data) with
  | some (j, rest) => if (skipWs rest).isEmpty then some j else none
  | none => none

/-- Python `str.lstrip(chars)`: removes leading characters that belong to
the character *set* `chars` — it does not remove a prefix string. -/
def pyLstripSet (chars : List Char) : List Char → List Char
  | [] => []
  | c :: cs => if c ∈ chars then pyLstripSet chars cs else c :: cs

/-- The whitespace characters Python `str.strip()` removes (ASCII part). -/
def isPySpace (c : Char) : Bool :=
  c = ' ' || c = '\t' || c = '\n' || c = '\r' || c = '\x0b' || c = '\x0c'

/-- Python `str.strip()` with no argument: trim whitespace at both ends. -/
def pyStrip (cs : List Char) : List Char :=
  ((cs.dropWhile isPySpace).reverse.dropWhile isPySpace).reverse

/-- The character set of the literal `"data: "` handed to `lstrip` in
`stream_llm_vllm`. -/
def dataChars : List Char := ['d', 'a', 't', 'a', ':', ' ']

/-- `line.lstrip("data: ").strip()` — the per-line preprocessing of
`stream_llm_vllm`. -/
def processLine (line : String) : String :=
  String.mk (pyStrip (pyLstripSet dataChars line.data))

/-- Python truthiness of an optional string: `None` and `""` are falsy. -/
def strTruthy : Option String → Bool
  | none => false
  | some s => !(s = "")

/-- `EnvConfig`: the four `os.getenv` reads done in `__init__`
(each yields a string or `None`). -/
structure EnvConfig where
  vllm_url : Option String
  vllm_model : Option String
  ollama_url : Option String
  ollama_model : Option String

/-- `bool(self.vllm_url and self.vllm_model)`. -/
def EnvConfig.is_vllm_available (c : EnvConfig) : Bool :=
  strTruthy c.vllm_url && strTruthy c.vllm_model

/-- `bool(self.ollama_url and self.ollama_model)`. -/
def EnvConfig.is_ollama_available (c : EnvConfig) : Bool :=
  strTruthy c.ollama_url && strTruthy c.ollama_model

/-- `EnvConfig.get_model_and_url`. -/
def EnvConfig.get_model_and_url (c : EnvConfig) : Option String × Option String :=
  if c.is_vllm_available then (c.vllm_model, c.vllm_url)
  else if c.is_ollama_available then (c.ollama_model, c.ollama_url)
  else (none, none)

/-- The module-level globals read from the environment at import time:
`ollama_url = os.getenv("OLLAMA_URL")`, `vllm_url = os.getenv("VLLM_URL")`. -/
structure ModuleGlobals where
  ollama_url : Option String
  vllm_url : Option String

/-- Python f-string rendering of an optional string: `None` prints as
`"None"`, as in `f"{ollama_url}/api/generate"`. -/
def fstr : Option String → String
  | none => "None"
  | some s => s

/-- The payload `invoke_llm_vllm` / `stream_llm_vllm` posts.  The
sampling fields are Python floats/ints passed through unchanged; floats
are represented as rationals, which is faithful here because nothing is
ever computed with them. -/
structure VllmPayload where
  model : String
  messages : List Json
  temperature : Rat
  top_p : Rat
  top_k : Int
  seed : Int
  stream : Bool

/-- The two-message list built from `prompt[0]` / `prompt[1]` when
`messages` is falsy; indexing a `None` prompt raises (`.error`). -/
def promptMessages : Option (String × String) → Except Unit (List Json)
  | some (p0, p1) =>
    .ok [.obj [("role", .str "system"), ("content", .str p0)],
         .obj [("role", .str "user"), ("content", .str p1)]]
  | none => .error ()

/-- `messages if messages else [...]` — an empty message list is falsy
and falls back to the prompt pair. -/
def buildVllmMessages (messages : Option (List Json))
    (prompt : Option (String × String)) : Except Unit (List Json) :=
  match messages with
  | some ms => if !ms.isEmpty then .ok ms else promptMessages prompt
  | none => promptMessages prompt

/-- The vLLM payload dict; built before the `try`, so a raised prompt
indexing error propagates to the caller. -/
def buildVllmPayload (model : String) (prompt : Option (String × String))
    (messages : Option (List Json)) (temperature top_p : Rat)
    (top_k seed : Int) (stream : Bool) : Except Unit VllmPayload :=
  (buildVllmMessages messages prompt).map fun ms =>
    { model := model, messages := ms, temperature := temperature,
      top_p := top_p, top_k := top_k, seed := seed, stream := stream }

/-- The fixed `options` dict of the Ollama payloads. -/
structure OllamaOptions where
  top_k : Nat
  top_p : Nat
  temperature : Nat
  seed : Nat
  num_ctx : Nat
deriving DecidableEq

/-- The payload `invoke_llm_ollama` / `stream_llm_ollama` posts. -/
structure OllamaPayload where
  messages : Option (List Json)
  prompt : Option (String × String)
  model : Option String
  options : OllamaOptions
  stream : Bool

/-- `invoke_llm_ollama`'s payload: the `ollama_model` argument is
overwritten by `model = os.getenv("OLLAMA_MODEL"); ollama_model = model`
before the dict is built. -/
def invokeOllamaPayload (env_OLLAMA_MODEL : Option String)
    (ollama_model : String) (prompt : Option (String × String))
    (messages : Option (List Json)) : OllamaPayload :=
  { messages := messages, prompt := prompt, model := env_OLLAMA_MODEL,
    options := { top_k := 1, top_p := 0, temperature := 0, seed := 100,
                 num_ctx := 4096 },
    stream := false }

/-- `stream_llm_ollama`'s payload: here `model` is the `ollama_model`
argument the caller passed. -/
def streamOllamaPayload (ollama_model : String)
    (prompt : Option (String × String)) (messages : Option (List Json)) :
    OllamaPayload :=
  { prompt := prompt, messages := messages, model := some ollama_model,
    options := { top_k := 1, top_p := 0, temperature := 0, seed := 100,
                 num_ctx := 4096 },
    stream := true }

/-- An HTTP POST issued by one of the adapters, with its target URL and
payload.  `invoke_llm_vllm`/`stream_llm_vllm` post to the module global
`vllm_url`; the Ollama adapters post to `f"{ollama_url}/api/generate"`. -/
inductive Request where
  | vllm (url : Option String) (payload : VllmPayload)
  | ollama (url : String) (payload : OllamaPayload)

/-- The target URL of a request. -/
def Request.url : Request → Option String
  | .vllm u _ => u
  | .ollama u _ => some u

/-- The outcome of a non-streaming `client.post`, supplied as data: a
response (status code, body) or a raised transport exception. -/
inductive PostOutcome where
  | resp (status : Nat) (body : String)
  | timeoutExc
  | otherExc (msg : String)

/-- The outcome of a streaming `client.stream` request: a response whose
body iterates as lines, or a raised exception. -/
inductive StreamOutcome where
  | resp (status : Nat) (lines : List String)
  | exc

/-- A returned Python dict, as an association list. -/
abbrev PyDict := List (String × Json)

/-- What a consumed generator produced: the yielded items in order, and
whether it ended by raising. -/
structure StreamTrace where
  items : List Json
  raised : Bool

/-- Stand-in for Python's `str(e)` of a `json.JSONDecodeError`; only the
fact that some error string is produced matters, not its text. -/
def jsonDecodeErrorText : String := "JSONDecodeError"

/-- Stand-in for `str(e)` of a caught extraction error
(`AttributeError`/`TypeError`/`IndexError`). -/
def shapeErrorText : String := "extraction error"

/-- Stand-in for `str(e)` of a caught `KeyError`. -/
def keyErrorText : String := "KeyError"

/-- `data.get('choices', [{}])[0].get(inner, {}).get('content', '')` with
Python semantics: missing keys fall back to defaults that end in `''`;
`.get` on a non-dict, or indexing anything but a non-empty list whose
head is a dict, raises (`.error`). -/
def choicesContent (j : Json) (inner : String) : Except Unit Json :=
  match j with
  | .obj members =>
    match getKey members "choices" with
    | none => .ok (.str "")
    | some (.arr (e :: _)) =>
      match e with
      | .obj emembers =>
        match getKey emembers inner with
        | none => .ok (.str "")
        | some (.obj imembers) =>
          match getKey imembers "content" with
          | none => .ok (.str "")
          | some v => .ok v
        | some _ => .error ()
      | _ => .error ()
    | some _ => .error ()
  | _ => .error ()

/-- The `try`/`except` body of `invoke_llm_vllm`, as a function of the
POST's outcome: on 200 decode the body and extract
`choices[0].message.content` (extraction errors are caught by the
generic handler), on non-200 return `{"error": response.text}`, and map
the two exception kinds to their error dicts. -/
def vllmOutcomeDict (outcome : PostOutcome) : PyDict :=
  match outcome with
  | .resp status body =>
    if status = 200 then
      match jsonLoads body with
      | some j =>
        match choicesContent j "message" with
        | .ok v => [("answer", v)]
        | .error _ => [("error", .str shapeErrorText)]
      | none => [("error", .str jsonDecodeErrorText)]
    else [("error", .str body)]
  | .timeoutExc => [("error", .str "Request timed out")]
  | .otherExc msg => [("error", .str msg)]

/-- `invoke_llm_vllm`: builds the payload (which may raise), posts once
to the global `vllm_url`, and converts every outcome into a one-key
dict.  Returns the result (`.error ()` = exception escaped to the
caller) and the list of requests issued. -/
def invoke_llm_vllm (g : ModuleGlobals) (model : String)
    (prompt : Option (String × String)) (messages : Option (List Json))
    (temperature top_p : Rat) (top_k seed : Int) (outcome : PostOutcome) :
    Except Unit PyDict × List Request :=
  match buildVllmPayload model prompt messages temperature top_p top_k seed false with
  | .error _ => (.error (), [])
  | .ok payload =>
    (.ok (vllmOutcomeDict outcome), [Request.vllm g.vllm_url payload])

/-- The `try`/`except` body of `invoke_llm_ollama`: the body is
JSON-decoded *before* the status check; on 200 the `response` lookup's
`KeyError`/`TypeError` is caught by the generic handler. -/
def ollamaOutcomeDict (outcome : PostOutcome) : PyDict :=
  match outcome with
  | .resp status body =>
    match jsonLoads body with
    | none => [("error", .str jsonDecodeErrorText)]
    | some j =>
      if status = 200 then
        match j with
        | .obj members =>
          match getKey members "response" with
          | some v => [("answer", v)]
          | none => [("error", .str keyErrorText)]
        | _ => [("error", .str shapeErrorText)]
      else [("error", .str body)]
  | .timeoutExc => [("error", .str "Request timed out")]
  | .otherExc msg => [("error", .str msg)]

/-- `invoke_llm_ollama`: builds its payload (total — no prompt
indexing), posts once, and converts the outcome with
`ollamaOutcomeDict`. -/
def invoke_llm_ollama (g : ModuleGlobals) (env_OLLAMA_MODEL : Option String)
    (ollama_model : String) (prompt : Option (String × String))
    (messages : Option (List Json)) (outcome : PostOutcome) :
    Except Unit PyDict × List Request :=
  let payload := invokeOllamaPayload env_OLLAMA_MODEL ollama_model prompt messages
  (.ok (ollamaOutcomeDict outcome),
    [Request.ollama (fstr g.ollama_url ++ "/api/generate") payload])

/-- The line loop of `stream_llm_vllm`: skip falsy lines, strip with the
`"data: "` character set, stop silently on `"[DONE]"`, skip lines whose
JSON decode fails, raise on extraction errors (only `JSONDecodeError`
is caught), and yield only truthy content. -/
def vllmExtractLines : List String → StreamTrace
  | [] => ⟨[], false⟩
  | line :: rest =>
    if line = "" then vllmExtractLines rest
    else
      let raw := processLine line
      if raw = "[DONE]" then ⟨[], false⟩
      else
        match jsonLoads raw with
        | none => vllmExtractLines rest
        | some j =>
          match choicesContent j "delta" with
          | .error _ => ⟨[], true⟩
          | .ok content =>
            if content.truthy then
              let t := vllmExtractLines rest
              ⟨content :: t.items, t.raised⟩
            else vllmExtractLines rest

/-- `stream_llm_vllm`: one streaming POST to the global `vllm_url`; a
non-200 status only prints (the generator ends normally, yielding
nothing); a transport exception is printed and re-raised. -/
def stream_llm_vllm (g : ModuleGlobals) (ollama_model : String)
    (prompt : Option (String × String)) (messages : Option (List Json))
    (temperature top_p : Rat) (top_k seed : Int) (outcome : StreamOutcome) :
    StreamTrace × List Request :=
  match buildVllmPayload ollama_model prompt messages temperature top_p top_k seed true with
  | .error _ => (⟨[], true⟩, [])
  | .ok payload =>
    (match outcome with
     | .resp status lines =>
       if status = 200 then vllmExtractLines lines else ⟨[], false⟩
     | .exc => ⟨[], true⟩,
     [Request.vllm g.vllm_url payload])

/-- Substring test on character lists, for Python's `needle in hay` on
strings. -/
def hasSubstring (needle : List Char) : List Char → Bool
  | [] => needle.isEmpty
  | c :: rest => needle.isPrefixOf (c :: rest) || hasSubstring needle rest

/-- Python `'response' in data` on a decoded JSON value: key membership
for dicts, element membership for lists, substring test for strings,
`TypeError` (raised) for numbers, booleans and `None`. -/
def pyContainsKey (j : Json) (k : String) : Except Unit Bool :=
  match j with
  | .obj members => .ok (getKey members k).isSome
  | .arr elems =>
    .ok (elems.any fun e => match e with | .str s => s = k | _ => false)
  | .str s => .ok (hasSubstring k.data s.data)
  | _ => .error ()

/-- Python `data['response']`: dict lookup; anything else raises. -/
def pyGetItem (j : Json) (k : String) : Except Unit Json :=
  match j with
  | .obj members =>
    match getKey members k with
    | some v => .ok v
    | none => .error ()
  | _ => .error ()

/-- The line loop of `stream_llm_ollama`: skip falsy lines and decode
failures; `'response' in data` / `data['response']` raise on non-dict
values (uncaught), and the `response` value is yielded whenever the key
is present. -/
def ollamaExtractLines : List String → StreamTrace
  | [] => ⟨[], false⟩
  | line :: rest =>
    if line = "" then ollamaExtractLines rest
    else
      match jsonLoads line with
      | none => ollamaExtractLines rest
      | some j =>
        match pyContainsKey j "response" with
        | .error _ => ⟨[], true⟩
        | .ok false => ollamaExtractLines rest
        | .ok true =>
          match pyGetItem j "response" with
          | .error _ => ⟨[], true⟩
          | .ok v =>
            let t := ollamaExtractLines rest
            ⟨v :: t.items, t.raised⟩

/-- `stream_llm_ollama`: one streaming POST to
`f"{ollama_url}/api/generate"`; the source has no status check, so the
lines are processed whatever the status code. -/
def stream_llm_ollama (g : ModuleGlobals) (ollama_model : String)
    (prompt : Option (String × String)) (messages : Option (List Json))
    (outcome : StreamOutcome) : StreamTrace × List Request :=
  let payload := streamOllamaPayload ollama_model prompt messages
  (match outcome with
   | .resp _ lines => ollamaExtractLines lines
   | .exc => ⟨[], true⟩,
   [Request.ollama (fstr g.ollama_url ++ "/api/generate") payload])

/-- The error string of the dispatchers' no-backend branch
(`f"No LLM service available for model"`). -/
def errorNoService : String := "No LLM service available for model"

/-- The `top_p=0.1` default of the vLLM adapter signatures, which the
dispatchers use since they pass no sampling arguments. -/
def vllmDefaultTopP : Rat := 1 / 10

/-- `invoke_llm` with `stream=False`: resolve, error out with no request
when no backend is configured, otherwise delegate (vLLM first).
`model.getD ""` only extracts the string the guard proved present. -/
def invoke_llm (g : ModuleGlobals) (env_OLLAMA_MODEL : Option String)
    (prompt : Option (String × String)) (messages : Option (List Json))
    (c : EnvConfig) (vllmOutcome ollamaOutcome : PostOutcome) :
    Except Unit PyDict × List Request :=
  let (model, url) := c.get_model_and_url
  if !strTruthy model || !strTruthy url then
    (.ok [("error", .str errorNoService)], [])
  else if c.is_vllm_available then
    invoke_llm_vllm g (model.getD "") prompt messages 0 vllmDefaultTopP 1 42 vllmOutcome
  else
    invoke_llm_ollama g env_OLLAMA_MODEL (model.getD "") prompt messages ollamaOutcome

/-- `stream_llm`: resolve, yield a single error string (and stop, with
no request) when no backend is configured, otherwise forward the chosen
adapter's chunks. -/
def stream_llm (g : ModuleGlobals) (prompt : Option (String × String))
    (messages : Option (List Json)) (c : EnvConfig)
    (vllmOutcome ollamaOutcome : StreamOutcome) :
    StreamTrace × List Request :=
  let (model, url) := c.get_model_and_url
  if !strTruthy model || !strTruthy url then
    (⟨[.str ("Error: " ++ errorNoService)], false⟩, [])
  else if c.is_vllm_available then
    stream_llm_vllm g (model.getD "") prompt messages 0 vllmDefaultTopP 1 42 vllmOutcome
  else
    stream_llm_ollama g (model.getD "") prompt messages ollamaOutcome

/-- The loop body of `SpandaLLM._astream`: emit each chunk while
accumulating `content`, then emit the accumulated text once. -/
def astreamGo (content : String) : List String → List String
  | [] => [content]
  | chunk :: rest => chunk :: astreamGo (content ++ chunk) rest

/-- `SpandaLLM._astream`, as a function of the chunk sequence the
underlying `stream_llm` produced: the contents of the emitted
`AIMessage`s, in order. -/
def SpandaLLM_astream (chunks : List String) : List String :=
  astreamGo "" chunks

/-- The first of the two vLLM sample lines named by the specification:
`data: {"choices":[{"delta":{"content":"Hel"}}]}`. -/
def sampleLineHel : String :=
  "data: \x7b\"choices\":[\x7b\"delta\":\x7b\"content\":\"Hel\"\x7d\x7d]\x7d"

/-- The second sample line:
`data: {"choices":[{"delta":{"content":"lo"}}]}`. -/
def sampleLineLo : String :=
  "data: \x7b\"choices\":[\x7b\"delta\":\x7b\"content\":\"lo\"\x7d\x7d]\x7d"

/-- The stream terminator line `data: [DONE]`. -/
def sampleLineDone : String := "data: [DONE]"

/-- The `options` record of a request's payload, when it is an Ollama
request. -/
def Request.payloadOptions : Request → Option OllamaOptions
  | .ollama _ p => some p.options
  | .vllm _ _ => none

/-- The claim's reading of the per-line preprocessing, stated from the
spec's words (for comparison with `processLine`, which embeds the
source): remove one leading occurrence of the exact string `"data: "`
when present, leave the line otherwise unchanged, and trim
whitespace. -/
def claimProcessLine (line : String) : String :=
  let cs :=
    if "data: ".data.isPrefixOf line.data then line.data.drop 6 else line.data
  String.mk (pyStrip cs)

/-- The claim's specification of the fast-serving stream output, from
its words: exactly the deltas of the parseable lines, in order — no
line terminates the sequence.  Delta extraction itself is the
adapter's own. -/
def claimVllmDeltas (lines : List String) : List Json :=
  lines.filterMap fun line =>
    match jsonLoads (processLine line) with
    | some j =>
      match choicesContent j "delta" with
      | .ok c => if c.truthy then some c else none
      | .error _ => none
    | none => none

/-! ## Claims -/

/-- C1: `EnvConfig.get_model_and_url` returns the fast-serving pair
`(vllm_model, vllm_url)` when both `vllm_url` and `vllm_model` are
non-empty; otherwise the local-runner pair `(ollama_model, ollama_url)`
when both of those are non-empty; otherwise `(none, none)` — and, being
a total function, it never raises. -/
theorem c1_get_model_and_url (c : EnvConfig) :
    (strTruthy c.vllm_url = true → strTruthy c.vllm_model = true →
      c.get_model_and_url = (c.vllm_model, c.vllm_url)) ∧
    ((strTruthy c.vllm_url = false ∨ strTruthy c.vllm_model = false) →
      strTruthy c.ollama_url = true → strTruthy c.ollama_model = true →
      c.get_model_and_url = (c.ollama_model, c.ollama_url)) ∧
    ((strTruthy c.vllm_url = false ∨ strTruthy c.vllm_model = false) →
      (strTruthy c.ollama_url = false ∨ strTruthy c.ollama_model = false) →
      c.get_model_and_url = (none, none)) := by
  refine ⟨fun h1 h2 => ?_, fun h1 h2 h3 => ?_, fun h1 h2 => ?_⟩ <;>
    simp only [EnvConfig.get_model_and_url, EnvConfig.is_vllm_available,
      EnvConfig.is_ollama_available]
  · rw [h1, h2]; rfl
  · rcases h1 with h | h <;> rw [h] <;> simp [h2, h3]
  · rcases h1 with h | h <;> rcases h2 with h' | h' <;> simp [h, h']

/-- Witness for C1: a vLLM-only configuration resolves to the vLLM
pair, an Ollama-only one to the Ollama pair, and one with neither
complete to `(none, none)`. -/
theorem c1_get_model_and_url_witness :
    EnvConfig.get_model_and_url ⟨some "u", some "m", none, none⟩ =
      (some "m", some "u") ∧
    EnvConfig.get_model_and_url ⟨none, some "m", some "ou", some "om"⟩ =
      (some "om", some "ou") ∧
    EnvConfig.get_model_and_url ⟨some "u", none, none, some "om"⟩ =
      (none, none) :=
  ⟨(c1_get_model_and_url _).1 rfl rfl,
   (c1_get_model_and_url _).2.1 (Or.inl rfl) rfl rfl,
   (c1_get_model_and_url _).2.2 (Or.inr rfl) (Or.inl rfl)⟩

/-- C2 counterexample: with no backend configured, `invoke_llm` does
not return `{error: "no service available"}` — the error string the
code produces is `"No LLM service available for model"`. -/
theorem c2_claim_counterexample :
    ¬ ((invoke_llm ⟨none, none⟩ none none (some [Json.str "hi"])
          ⟨none, none, none, none⟩ (.resp 200 "") (.resp 200 "")).1 =
        .ok [("error", Json.str "no service available")]) := by
  intro h
  exact absurd
    (congrArg (fun r => match r with
      | Except.ok (("error", Json.str s) :: _) => s
      | _ => "") h)
    (by decide)

/-- C2 (amended): whenever the resolver yields no backend (model or url
falsy), `invoke_llm` returns
`{"error": "No LLM service available for model"}` and issues zero
requests, and `stream_llm` yields exactly the one item
`"Error: No LLM service available for model"`, ends without raising,
and also issues zero requests. -/
theorem c2_no_service (g : ModuleGlobals) (env_OLLAMA_MODEL : Option String)
    (prompt : Option (String × String)) (messages : Option (List Json))
    (c : EnvConfig) (pv po : PostOutcome) (sv so : StreamOutcome)
    (h : strTruthy (c.get_model_and_url).1 = false ∨
      strTruthy (c.get_model_and_url).2 = false) :
    invoke_llm g env_OLLAMA_MODEL prompt messages c pv po =
      (.ok [("error", .str errorNoService)], []) ∧
    stream_llm g prompt messages c sv so =
      (⟨[.str ("Error: " ++ errorNoService)], false⟩, []) := by
  rcases hmu : c.get_model_and_url with ⟨m, u⟩
  rw [hmu] at h
  constructor <;>
  · simp only [invoke_llm, stream_llm, hmu]
    rcases h with h | h <;> simp [h]

/-- Witness for C2: the fully unconfigured `EnvConfig`. -/
theorem c2_no_service_witness :
    invoke_llm ⟨none, none⟩ none none (some [Json.str "hi"])
        ⟨none, none, none, none⟩ (.resp 200 "") (.resp 200 "") =
      (.ok [("error", .str errorNoService)], []) ∧
    stream_llm ⟨none, none⟩ none (some [Json.str "hi"])
        ⟨none, none, none, none⟩ (.resp 200 []) (.resp 200 []) =
      (⟨[.str ("Error: " ++ errorNoService)], false⟩, []) :=
  c2_no_service ⟨none, none⟩ none none (some [Json.str "hi"])
    ⟨none, none, none, none⟩ (.resp 200 "") (.resp 200 "")
    (.resp 200 []) (.resp 200 []) (Or.inl rfl)

/-- C3: feeding `stream_llm_vllm` the three specification lines under
HTTP 200 yields exactly `["Hel", "lo"]`; the `[DONE]` line ends the
stream silently (no raise), and any lines after it are never
processed. -/
theorem c3_stream_vllm_sample (g : ModuleGlobals) (rest : List String) :
    (stream_llm_vllm g "model-x" none (some [Json.str "q"]) 0 (1 / 10) 1 42
        (.resp 200 ([sampleLineHel, sampleLineLo, sampleLineDone] ++ rest))).1 =
      ⟨[Json.str "Hel", Json.str "lo"], false⟩ :=
  rfl

/-- C4 counterexample: on the line `"tada: x"` the code's preprocessing
(`lstrip` with a character set) gives `"x"`, not the prefix-removal
reading's `"tada: x"`. -/
theorem c4_claim_counterexample :
    ¬ (processLine "tada: x" = claimProcessLine "tada: x") := by
  decide

/-- C4 (amended): the preprocessing is Python `str.lstrip` *character
set* semantics — every leading character drawn from
`{'d','a','t',':',' '}` is removed, then whitespace is trimmed.  On a
line `"data: " + rest` whose first character after the prefix is
outside that set, this coincides with removing the prefix and
trimming. -/
theorem c4_lstrip_charset (rest : List Char)
    (h : rest.head?.all (fun c => !(c ∈ dataChars)) = true) :
    processLine (String.mk ('d' :: 'a' :: 't' :: 'a' :: ':' :: ' ' :: rest)) =
      String.mk (pyStrip rest) := by
  have hl : pyLstripSet dataChars ('d' :: 'a' :: 't' :: 'a' :: ':' :: ' ' :: rest) =
      pyLstripSet dataChars rest := by
    simp [pyLstripSet, dataChars]
  have hr : pyLstripSet dataChars rest = rest := by
    cases rest with
    | nil => rfl
    | cons c cs =>
      have hc : ¬ (c ∈ dataChars) := by simpa using h
      simp [pyLstripSet, hc]
  simp [processLine, hl, hr]

/-- Witness for C4: the line `"data: x "` becomes `"x"`. -/
theorem c4_lstrip_charset_witness :
    (('x' :: ' ' :: []).head?.all (fun c => !(c ∈ dataChars)) = true) ∧
    processLine (String.mk
        ('d' :: 'a' :: 't' :: 'a' :: ':' :: ' ' :: 'x' :: ' ' :: [])) =
      String.mk (pyStrip ('x' :: ' ' :: [])) :=
  ⟨by decide, c4_lstrip_charset ('x' :: ' ' :: []) (by decide)⟩

/-- C5 counterexample: `"data: [DONE]"` is itself a line whose JSON
parse fails, yet it terminates `stream_llm_vllm`: on
`[DONE]`-then-valid-line input the adapter yields nothing, not the
valid line's delta. -/
theorem c5_claim_counterexample :
    ¬ ((stream_llm_vllm ⟨none, none⟩ "m" none (some [Json.str "q"]) 0 (1 / 10)
          1 42 (.resp 200 [sampleLineDone, sampleLineHel])).1.items =
        claimVllmDeltas [sampleLineDone, sampleLineHel]) := by
  intro h
  exact absurd (congrArg List.length h) (by decide)

/-- C5 (amended): in both adapters a line whose JSON parse fails is
skipped without terminating the sequence and without surfacing an
error — the output on that line followed by any remaining lines equals
the output on the remaining lines — except that in `stream_llm_vllm` a
failing line whose processed form is the literal `"[DONE]"` terminates
the stream. -/
theorem c5_skip_unparseable :
    (∀ (line : String) (rest : List String),
      jsonLoads (processLine line) = none → ¬ (processLine line = "[DONE]") →
      vllmExtractLines (line :: rest) = vllmExtractLines rest) ∧
    (∀ (line : String) (rest : List String),
      jsonLoads line = none →
      ollamaExtractLines (line :: rest) = ollamaExtractLines rest) := by
  constructor
  · intro line rest hp hd
    by_cases hline : line = ""
    · simp [vllmExtractLines, hline]
    · simp [vllmExtractLines, hline, hd, hp]
  · intro line rest hp
    by_cases hline : line = "" <;> simp [ollamaExtractLines, hline, hp]

/-- Witness for C5: a malformed line `"oops"` is skipped by both
loops. -/
theorem c5_skip_unparseable_witness :
    vllmExtractLines ["oops", sampleLineDone] = vllmExtractLines [sampleLineDone] ∧
    ollamaExtractLines ["oops"] = ollamaExtractLines [] :=
  ⟨c5_skip_unparseable.1 "oops" [sampleLineDone] rfl (by decide),
   c5_skip_unparseable.2 "oops" [] rfl⟩

/-- C6: every request built by the local-runner adapter operations
carries exactly the options
`{top_k: 1, top_p: 0, temperature: 0, seed: 100, num_ctx: 4096}`,
whatever the caller passed. -/
theorem c6_fixed_ollama_options (g : ModuleGlobals)
    (env_OLLAMA_MODEL : Option String) (ollama_model : String)
    (prompt : Option (String × String)) (messages : Option (List Json))
    (pOut : PostOutcome) (sOut : StreamOutcome) :
    (invoke_llm_ollama g env_OLLAMA_MODEL ollama_model prompt messages
        pOut).2.map Request.payloadOptions = [some ⟨1, 0, 0, 100, 4096⟩] ∧
    (stream_llm_ollama g ollama_model prompt messages sOut).2.map
        Request.payloadOptions = [some ⟨1, 0, 0, 100, 4096⟩] :=
  ⟨rfl, rfl⟩

/-- The `try` body of `invoke_llm_vllm` always produces a single-key
dict: `answer` or `error`. -/
theorem vllmOutcomeDict_oneKey (o : PostOutcome) :
    (∃ v, vllmOutcomeDict o = [("answer", v)]) ∨
    (∃ v, vllmOutcomeDict o = [("error", v)]) := by
  cases o with
  | resp status body =>
    by_cases h2 : status = 200
    · cases hj : jsonLoads body with
      | none =>
        exact Or.inr ⟨.str jsonDecodeErrorText, by simp [vllmOutcomeDict, h2, hj]⟩
      | some j =>
        cases hc : choicesContent j "message" with
        | ok v => exact Or.inl ⟨v, by simp [vllmOutcomeDict, h2, hj, hc]⟩
        | error e =>
          exact Or.inr ⟨.str shapeErrorText, by simp [vllmOutcomeDict, h2, hj, hc]⟩
    · exact Or.inr ⟨.str body, by simp [vllmOutcomeDict, h2]⟩
  | timeoutExc => exact Or.inr ⟨_, rfl⟩
  | otherExc msg => exact Or.inr ⟨_, rfl⟩

/-- The `try` body of `invoke_llm_ollama` always produces a single-key
dict: `answer` or `error`. -/
theorem ollamaOutcomeDict_oneKey (o : PostOutcome) :
    (∃ v, ollamaOutcomeDict o = [("answer", v)]) ∨
    (∃ v, ollamaOutcomeDict o = [("error", v)]) := by
  cases o with
  | resp status body =>
    cases hj : jsonLoads body with
    | none =>
      exact Or.inr ⟨.str jsonDecodeErrorText, by simp [ollamaOutcomeDict, hj]⟩
    | some j =>
      by_cases h2 : status = 200
      · cases j with
        | obj members =>
          cases hk : getKey members "response" with
          | some v => exact Or.inl ⟨v, by simp [ollamaOutcomeDict, hj, h2, hk]⟩
          | none =>
            exact Or.inr ⟨.str keyErrorText, by simp [ollamaOutcomeDict, hj, h2, hk]⟩
        | null => exact Or.inr ⟨.str shapeErrorText, by simp [ollamaOutcomeDict, hj, h2]⟩
        | bool b => exact Or.inr ⟨.str shapeErrorText, by simp [ollamaOutcomeDict, hj, h2]⟩
        | num l => exact Or.inr ⟨.str shapeErrorText, by simp [ollamaOutcomeDict, hj, h2]⟩
        | str s => exact Or.inr ⟨.str shapeErrorText, by simp [ollamaOutcomeDict, hj, h2]⟩
        | arr xs => exact Or.inr ⟨.str shapeErrorText, by simp [ollamaOutcomeDict, hj, h2]⟩
      · exact Or.inr ⟨.str body, by simp [ollamaOutcomeDict, hj, h2]⟩
  | timeoutExc => exact Or.inr ⟨_, rfl⟩
  | otherExc msg => exact Or.inr ⟨_, rfl⟩

/-- C7: provided the payload is constructible (truthy `messages`, or a
prompt pair to index), every outcome — 200, non-200, transport
exception, decode or extraction failure — makes both non-streaming
adapters return a dict with exactly one of the keys `answer` or
`error`, never both and never letting an exception escape. -/
theorem c7_tagged_union (g : ModuleGlobals) (model : String)
    (prompt : Option (String × String)) (messages : Option (List Json))
    (temperature top_p : Rat) (top_k seed : Int)
    (env_OLLAMA_MODEL : Option String) (arg_model : String)
    (pv po : PostOutcome)
    (h : ∃ ms, buildVllmMessages messages prompt = .ok ms) :
    ((∃ v, (invoke_llm_vllm g model prompt messages temperature top_p top_k
        seed pv).1 = .ok [("answer", v)]) ∨
     (∃ v, (invoke_llm_vllm g model prompt messages temperature top_p top_k
        seed pv).1 = .ok [("error", v)])) ∧
    ((∃ v, (invoke_llm_ollama g env_OLLAMA_MODEL arg_model prompt messages
        po).1 = .ok [("answer", v)]) ∨
     (∃ v, (invoke_llm_ollama g env_OLLAMA_MODEL arg_model prompt messages
        po).1 = .ok [("error", v)])) := by
  obtain ⟨ms, hms⟩ := h
  constructor
  · have h1 : (invoke_llm_vllm g model prompt messages temperature top_p top_k
        seed pv).1 = .ok (vllmOutcomeDict pv) := by
      simp [invoke_llm_vllm, buildVllmPayload, hms, Except.map]
    rcases vllmOutcomeDict_oneKey pv with ⟨v, hv⟩ | ⟨v, hv⟩
    · exact Or.inl ⟨v, by rw [h1, hv]⟩
    · exact Or.inr ⟨v, by rw [h1, hv]⟩
  · rcases ollamaOutcomeDict_oneKey po with ⟨v, hv⟩ | ⟨v, hv⟩
    · exact Or.inl ⟨v, by simp [invoke_llm_ollama, hv]⟩
    · exact Or.inr ⟨v, by simp [invoke_llm_ollama, hv]⟩

/-- Witness for C7: a non-200 vLLM response and a timed-out Ollama
call, under a one-message history. -/
theorem c7_tagged_union_witness :
    ((∃ v, (invoke_llm_vllm ⟨none, none⟩ "m" none (some [Json.str "x"]) 0
        (1 / 10) 1 42 (.resp 500 "bad")).1 = .ok [("answer", v)]) ∨
     (∃ v, (invoke_llm_vllm ⟨none, none⟩ "m" none (some [Json.str "x"]) 0
        (1 / 10) 1 42 (.resp 500 "bad")).1 = .ok [("error", v)])) ∧
    ((∃ v, (invoke_llm_ollama ⟨none, none⟩ none "a" none
        (some [Json.str "x"]) .timeoutExc).1 = .ok [("answer", v)]) ∨
     (∃ v, (invoke_llm_ollama ⟨none, none⟩ none "a" none
        (some [Json.str "x"]) .timeoutExc).1 = .ok [("error", v)])) :=
  c7_tagged_union ⟨none, none⟩ "m" none (some [Json.str "x"]) 0 (1 / 10) 1 42
    none "a" (.resp 500 "bad") .timeoutExc ⟨[Json.str "x"], rfl⟩

/-- The accumulation invariant of `SpandaLLM._astream`'s loop. -/
theorem astreamGo_spec (chunks : List String) :
    ∀ acc, astreamGo acc chunks = chunks ++ [List.foldl (· ++ ·) acc chunks] := by
  induction chunks with
  | nil => intro acc; rfl
  | cons c cs ih =>
    intro acc
    show c :: astreamGo (acc ++ c) cs =
      c :: (cs ++ [List.foldl (· ++ ·) (acc ++ c) cs])
    exact congrArg _ (ih (acc ++ c))

/-- C8: `SpandaLLM._astream` re-emits every delta in order and then a
single final message carrying the left-to-right concatenation of all
deltas; in particular `"Hel"`, `"lo"` give `"Hel"`, `"lo"`,
`"Hello"`. -/
theorem c8_astream_concat (chunks : List String) :
    SpandaLLM_astream chunks = chunks ++ [chunks.foldl (· ++ ·) ""] ∧
    SpandaLLM_astream ["Hel", "lo"] = ["Hel", "lo", "Hello"] :=
  ⟨astreamGo_spec chunks "", rfl⟩

/-- C9: `invoke_llm_ollama` ignores its `ollama_model` argument — the
payload's `model` field is the `OLLAMA_MODEL` environment value, and
two calls differing only in that argument build identical payloads —
while `stream_llm_ollama` does use the argument it is given. -/
theorem c9_invoke_ignores_model_arg (g : ModuleGlobals)
    (env_OLLAMA_MODEL : Option String) (m1 m2 : String)
    (prompt : Option (String × String)) (messages : Option (List Json))
    (pOut : PostOutcome) :
    (invokeOllamaPayload env_OLLAMA_MODEL m1 prompt messages).model =
      env_OLLAMA_MODEL ∧
    invokeOllamaPayload env_OLLAMA_MODEL m1 prompt messages =
      invokeOllamaPayload env_OLLAMA_MODEL m2 prompt messages ∧
    (invoke_llm_ollama g env_OLLAMA_MODEL m1 prompt messages pOut).2 =
      [Request.ollama (fstr g.ollama_url ++ "/api/generate")
        (invokeOllamaPayload env_OLLAMA_MODEL m1 prompt messages)] ∧
    (streamOllamaPayload m1 prompt messages).model = some m1 :=
  ⟨rfl, rfl, rfl, rfl⟩

/-- The URLs of the requests `invoke_llm` issues, by branch. -/
theorem invoke_llm_url_trace (g : ModuleGlobals)
    (env_OLLAMA_MODEL : Option String) (prompt : Option (String × String))
    (messages : Option (List Json)) (c : EnvConfig) (pv po : PostOutcome) :
    (invoke_llm g env_OLLAMA_MODEL prompt messages c pv po).2.map Request.url =
      if c.is_vllm_available then
        (match buildVllmMessages messages prompt with
         | .ok _ => [g.vllm_url]
         | .error _ => [])
      else if c.is_ollama_available then
        [some (fstr g.ollama_url ++ "/api/generate")]
      else [] := by
  have hvllm : ∀ model,
      (invoke_llm_vllm g model prompt messages 0 vllmDefaultTopP 1 42 pv).2.map
          Request.url =
        (match buildVllmMessages messages prompt with
         | .ok _ => [g.vllm_url]
         | .error _ => []) := by
    intro model
    cases hb : buildVllmMessages messages prompt with
    | ok ms => simp [invoke_llm_vllm, buildVllmPayload, hb, Except.map, Request.url]
    | error e => simp [invoke_llm_vllm, buildVllmPayload, hb, Except.map]
  by_cases hv : c.is_vllm_available = true
  · have h' : strTruthy c.vllm_url = true ∧ strTruthy c.vllm_model = true := by
      simpa [EnvConfig.is_vllm_available, Bool.and_eq_true] using hv
    simp only [invoke_llm, EnvConfig.get_model_and_url, hv, if_true]
    simp [h'.1, h'.2, hv]
    exact hvllm _
  · by_cases ho : c.is_ollama_available = true
    · have h' : strTruthy c.ollama_url = true ∧ strTruthy c.ollama_model = true := by
        simpa [EnvConfig.is_ollama_available, Bool.and_eq_true] using ho
      simp [invoke_llm, EnvConfig.get_model_and_url, hv, ho, h'.1, h'.2,
        invoke_llm_ollama, Request.url]
    · simp [invoke_llm, EnvConfig.get_model_and_url, hv, ho, strTruthy]

/-- The URLs of the requests `stream_llm` issues, by branch. -/
theorem stream_llm_url_trace (g : ModuleGlobals)
    (prompt : Option (String × String)) (messages : Option (List Json))
    (c : EnvConfig) (sv so : StreamOutcome) :
    (stream_llm g prompt messages c sv so).2.map Request.url =
      if c.is_vllm_available then
        (match buildVllmMessages messages prompt with
         | .ok _ => [g.vllm_url]
         | .error _ => [])
      else if c.is_ollama_available then
        [some (fstr g.ollama_url ++ "/api/generate")]
      else [] := by
  have hvllm : ∀ model,
      (stream_llm_vllm g model prompt messages 0 vllmDefaultTopP 1 42 sv).2.map
          Request.url =
        (match buildVllmMessages messages prompt with
         | .ok _ => [g.vllm_url]
         | .error _ => []) := by
    intro model
    cases hb : buildVllmMessages messages prompt with
    | ok ms => simp [stream_llm_vllm, buildVllmPayload, hb, Except.map, Request.url]
    | error e => simp [stream_llm_vllm, buildVllmPayload, hb, Except.map]
  by_cases hv : c.is_vllm_available = true
  · have h' : strTruthy c.vllm_url = true ∧ strTruthy c.vllm_model = true := by
      simpa [EnvConfig.is_vllm_available, Bool.and_eq_true] using hv
    simp only [stream_llm, EnvConfig.get_model_and_url, hv, if_true]
    simp [h'.1, h'.2, hv]
    exact hvllm _
  · by_cases ho : c.is_ollama_available = true
    · have h' : strTruthy c.ollama_url = true ∧ strTruthy c.ollama_model = true := by
        simpa [EnvConfig.is_ollama_available, Bool.and_eq_true] using ho
      simp [stream_llm, EnvConfig.get_model_and_url, hv, ho, h'.1, h'.2,
        stream_llm_ollama, Request.url]
    · simp [stream_llm, EnvConfig.get_model_and_url, hv, ho, strTruthy]

/-- C10: every request either dispatcher issues targets a URL built
from the import-time module globals — `vllm_url` for the fast-serving
adapter, `f"{ollama_url}/api/generate"` for the local-runner adapter —
never the url the resolver returned; and two configurations with the
same availability flags (however their url fields differ) contact
exactly the same URLs. -/
theorem c10_global_urls (g : ModuleGlobals) (env_OLLAMA_MODEL : Option String)
    (prompt : Option (String × String)) (messages : Option (List Json)) :
    (∀ (c : EnvConfig) (pv po : PostOutcome),
      ∀ r ∈ (invoke_llm g env_OLLAMA_MODEL prompt messages c pv po).2,
        r.url = g.vllm_url ∨
        r.url = some (fstr g.ollama_url ++ "/api/generate")) ∧
    (∀ (c : EnvConfig) (sv so : StreamOutcome),
      ∀ r ∈ (stream_llm g prompt messages c sv so).2,
        r.url = g.vllm_url ∨
        r.url = some (fstr g.ollama_url ++ "/api/generate")) ∧
    (∀ (c c' : EnvConfig) (pv po : PostOutcome),
      c.is_vllm_available = c'.is_vllm_available →
      c.is_ollama_available = c'.is_ollama_available →
      (invoke_llm g env_OLLAMA_MODEL prompt messages c pv po).2.map
          Request.url =
        (invoke_llm g env_OLLAMA_MODEL prompt messages c' pv po).2.map
          Request.url) ∧
    (∀ (c c' : EnvConfig) (sv so : StreamOutcome),
      c.is_vllm_available = c'.is_vllm_available →
      c.is_ollama_available = c'.is_ollama_available →
      (stream_llm g prompt messages c sv so).2.map Request.url =
        (stream_llm g prompt messages c' sv so).2.map Request.url) := by
  refine ⟨?_, ?_, ?_, ?_⟩
  · intro c pv po r hr
    have hm := List.mem_map_of_mem Request.url hr
    rw [invoke_llm_url_trace] at hm
    split at hm
    · split at hm
      · simp at hm; exact Or.inl hm
      · simp at hm
    · split at hm
      · simp at hm; exact Or.inr hm
      · simp at hm
  · intro c sv so r hr
    have hm := List.mem_map_of_mem Request.url hr
    rw [stream_llm_url_trace] at hm
    split at hm
    · split at hm
      · simp at hm; exact Or.inl hm
      · simp at hm
    · split at hm
      · simp at hm; exact Or.inr hm
      · simp at hm
  · intro c c' pv po h1 h2
    rw [invoke_llm_url_trace, invoke_llm_url_trace, h1, h2]
  · intro c c' sv so h1 h2
    rw [stream_llm_url_trace, stream_llm_url_trace, h1, h2]

/-- Witness for C10: two Ollama-only configurations whose url fields
differ produce the same contacted URLs. -/
theorem c10_global_urls_witness :
    (invoke_llm ⟨some "http://o", some "http://v"⟩ none none
        (some [Json.str "x"]) ⟨none, none, some "http://a", some "om"⟩
        (.resp 200 "") (.resp 200 "")).2.map Request.url =
      (invoke_llm ⟨some "http://o", some "http://v"⟩ none none
        (some [Json.str "x"]) ⟨none, none, some "http://b", some "om"⟩
        (.resp 200 "") (.resp 200 "")).2.map Request.url :=
  (c10_global_urls ⟨some "http://o", some "http://v"⟩ none none
    (some [Json.str "x"])).2.2.1 ⟨none, none, some "http://a", some "om"⟩
    ⟨none, none, some "http://b", some "om"⟩ (.resp 200 "") (.resp 200 "")
    rfl rfl

end SpandaOptiChat
